import Mathlib

/-!
Shallow embedding of the ecom-backend repository (src/database.py,
src/models.py, src/main.py): a minimal e-commerce catalog backend with
Category / Product / User records held in a relational store, request
handlers for creation, update, listing and login, and a header-based
admin check.

The relational store is modelled as a `DB` structure holding the three
record lists; each mutating handler is a function `DB → payload →
Except ApiError α × DB` returning the response (or the raised
`HTTPException`, modelled as `ApiError`) together with the resulting
store.  SQLAlchemy autoincrement primary keys are modelled by `nextId`.
The sha256 hexdigest primitive used by `hash_password` is abstracted as
a function parameter `sha256hex : String → String`.
-/

namespace Ecom

/-! Record types, embedded from src/models.py. -/

/-- Category row (src/models.py, class Category): integer primary key and a
unique, required name. -/
structure Category where
  id : Nat
  name : String
deriving Repr, DecidableEq

/-- Product row (src/models.py, class Product): integer primary key, required
name, Numeric(10,2) price, in_stock flag and an optional foreign key to
Category.  The price is embedded as an exact rational; every value that
reaches the store through the handlers is rounded to 2 fractional digits by
the Numeric(10,2) column (see quantize2 in addProduct / applyUpdate).  The
name column is declared String(120); whether a longer value is rejected or
stored is decided by the backend, not by this repository's code, so the
embedding keeps the handler-visible string and the theorems that depend on
the bound carry it as a hypothesis. -/
structure Product where
  id : Nat
  name : String
  price : Rat
  in_stock : Bool
  category_id : Option Nat
deriving Repr, DecidableEq

/-- Modelled from the spec: src/models.py in this snapshot does not contain
the `User` declaration that src/main.py references as `models.User`; its
shape is taken from spec §3 (User): integer primary key `id`, required
`name`, unique required `email` used as login identifier, derived
`password_hash`, and a `role` string. -/
structure User where
  id : Nat
  name : String
  email : String
  password_hash : String
  role : String
deriving Repr, DecidableEq

/-- The relational store: one list of rows per table. -/
structure DB where
  categories : List Category
  products : List Product
  users : List User
deriving Repr, DecidableEq

/-! Request / response schemas, embedded from src/main.py. -/

/-- Payload of POST /categories (src/main.py, class CategoryCreate). -/
structure CategoryCreate where
  name : String
deriving Repr, DecidableEq

/-- Payload of POST /products (src/main.py, class ProductCreate).  The source
declares `price: float` with no further constraint; the numeric value of the
payload is embedded as an exact rational. -/
structure ProductCreate where
  name : String
  price : Rat
  in_stock : Bool := true
  category_id : Option Nat := none
deriving Repr, DecidableEq

/-- Payload of PUT /products/{id} (src/main.py, class ProductUpdate). -/
structure ProductUpdate where
  name : String
  price : Rat
  in_stock : Bool
  category_id : Option Nat := none
deriving Repr, DecidableEq

/-- Payload of POST /users (src/main.py, class UserCreate). -/
structure UserCreate where
  name : String
  email : String
  password : String
  role : String := "user"
deriving Repr, DecidableEq

/-- Output view of a User (src/main.py, class UserOut): exactly id, name,
email and role; no password_hash field. -/
structure UserOut where
  id : Nat
  name : String
  email : String
  role : String
deriving Repr, DecidableEq

/-- Payload of POST /login (src/main.py, class LoginInput). -/
structure LoginInput where
  email : String
  password : String
deriving Repr, DecidableEq

/-- Success body of POST /login (src/main.py, login): exactly message and
role. -/
structure LoginResponse where
  message : String
  role : String
deriving Repr, DecidableEq

/-- A raised HTTPException: status code and detail string. -/
structure ApiError where
  status : Nat
  detail : String
deriving Repr, DecidableEq

/-! Hashing helpers, embedded from src/main.py. -/

def PEPPER : String := "class-demo-not-secure"

/-- src/main.py hash_password: sha256 of the raw password concatenated with
PEPPER; the sha256 hexdigest primitive is abstracted as `sha256hex`. -/
def hash_password (sha256hex : String → String) (raw : String) : String :=
  sha256hex (raw ++ PEPPER)

/-- src/main.py verify_password. -/
def verify_password (sha256hex : String → String) (raw hashed : String) : Bool :=
  hash_password sha256hex raw == hashed

/-! Query helpers, embedding the `db.query(...).filter(...).first()`
expressions of src/main.py (`first()` on an unordered query is the first
matching row). -/

def findCategoryByName (db : DB) (n : String) : Option Category :=
  db.categories.find? (fun c => c.name == n)

def findCategoryById (db : DB) (i : Nat) : Option Category :=
  db.categories.find? (fun c => c.id == i)

def findProductById (db : DB) (i : Nat) : Option Product :=
  db.products.find? (fun p => p.id == i)

def findUserByEmail (db : DB) (e : String) : Option User :=
  db.users.find? (fun u => u.email == e)

/-- Autoincrement primary key generation: one more than the largest id in
use (never collides with an existing row). -/
def nextId (ids : List Nat) : Nat :=
  ids.foldr (fun i m => max i m) 0 + 1

/-- Insertion step for `order_by(... .desc())`: larger keys first. -/
def insertIdDesc {α : Type} (key : α → Nat) (x : α) : List α → List α
  | [] => [x]
  | y :: ys => if key y ≤ key x then x :: y :: ys else y :: insertIdDesc key x ys

/-- Embedding of `order_by(<key>.desc())`: sort a row list by key,
descending. -/
def sortIdDesc {α : Type} (key : α → Nat) (l : List α) : List α :=
  l.foldr (insertIdDesc key) []

/-! Request handlers, embedded from src/main.py. -/

/-- src/main.py admin_required: 401 when the X-Admin-Email header is absent
or empty (Python `if not x_admin_email`), otherwise query for a User with
that email AND role "admin"; 403 when none matches, else return it. -/
def admin_required (db : DB) (x_admin_email : Option String) :
    Except ApiError User :=
  match x_admin_email with
  | none => .error ⟨401, "Missing X-Admin-Email header"⟩
  | some e =>
    if e == "" then .error ⟨401, "Missing X-Admin-Email header"⟩
    else
      match db.users.find? (fun u => u.email == e && u.role == "admin") with
      | none => .error ⟨403, "Admin access required"⟩
      | some admin => .ok admin

/-- src/main.py create_category: 400 when a category with the same name
already exists, otherwise insert with a generated id and return it. -/
def create_category (db : DB) (payload : CategoryCreate) :
    Except ApiError Category × DB :=
  match findCategoryByName db payload.name with
  | some _ => (.error ⟨400, "Category name already exists"⟩, db)
  | none =>
    let cat : Category := ⟨nextId (db.categories.map Category.id), payload.name⟩
    (.ok cat, { db with categories := db.categories ++ [cat] })

/-- src/main.py list_products_by_category: 404 when the category id does not
exist, otherwise the products whose category_id equals it, newest id
first.  A SQL `category_id == X` comparison is false on a NULL column, as is
`p.category_id == some X` on `none`. -/
def list_products_by_category (db : DB) (category_id : Nat) :
    Except ApiError (List Product) :=
  match findCategoryById db category_id with
  | none => .error ⟨404, "Category not found"⟩
  | some _ =>
    .ok (sortIdDesc Product.id
      (db.products.filter (fun p => p.category_id == some category_id)))

/-- Numeric(10,2) storage boundary (src/models.py line 17): committing a
price through the scale-2 column stores it rounded to 2 fractional digits,
and db.refresh repopulates the row with that stored value, which the
handler then returns. -/
def quantize2 (q : Rat) : Rat := (((q * 100 + 1/2).floor : Int) : Rat) / 100

/-- Insertion of a new product row with a generated id (the
db.add/commit/refresh part of create_product): the price comes back from
the Numeric(10,2) column rounded to 2 fractional digits. -/
def addProduct (db : DB) (payload : ProductCreate) :
    Except ApiError Product × DB :=
  let item : Product := ⟨nextId (db.products.map Product.id), payload.name,
    quantize2 payload.price, payload.in_stock, payload.category_id⟩
  (.ok item, { db with products := db.products ++ [item] })

/-- src/main.py create_product: when category_id is non-null, 404 unless
that category exists; the payload fields themselves are subject to no
validation and are stored as supplied. -/
def create_product (db : DB) (payload : ProductCreate) :
    Except ApiError Product × DB :=
  match payload.category_id with
  | some cid =>
    match findCategoryById db cid with
    | none => (.error ⟨404, "Category not found"⟩, db)
    | some _ => addProduct db payload
  | none => addProduct db payload

/-- Full-replace of the mutable fields of an existing product row (the
assignment/commit/refresh part of update_product): the price comes back
from the Numeric(10,2) column rounded to 2 fractional digits. -/
def applyUpdate (db : DB) (item : Product) (payload : ProductUpdate) :
    Except ApiError Product × DB :=
  let item2 : Product := ⟨item.id, payload.name, quantize2 payload.price,
    payload.in_stock, payload.category_id⟩
  (.ok item2,
   { db with products :=
      db.products.map (fun p => if p.id == item.id then item2 else p) })

/-- src/main.py update_product: 404 when the product id does not exist; when
category_id is non-null, 404 unless that category exists; otherwise replace
all mutable fields with the payload values, unvalidated. -/
def update_product (db : DB) (product_id : Nat) (payload : ProductUpdate) :
    Except ApiError Product × DB :=
  match findProductById db product_id with
  | none => (.error ⟨404, "Product not found"⟩, db)
  | some item =>
    match payload.category_id with
    | some cid =>
      match findCategoryById db cid with
      | none => (.error ⟨404, "Category not found"⟩, db)
      | some _ => applyUpdate db item payload
    | none => applyUpdate db item payload

/-- The response_model=UserOut projection applied by FastAPI to returned
User rows: keeps exactly id, name, email, role. -/
def userToOut (u : User) : UserOut := ⟨u.id, u.name, u.email, u.role⟩

/-- src/main.py create_user: 400 when the email is already registered;
otherwise insert with hashed password and the role coerced to "user" unless
it is exactly "user" or "admin", and return the UserOut view. -/
def create_user (sha256hex : String → String) (db : DB) (payload : UserCreate) :
    Except ApiError UserOut × DB :=
  match findUserByEmail db payload.email with
  | some _ => (.error ⟨400, "Email already registered"⟩, db)
  | none =>
    let user : User := ⟨nextId (db.users.map User.id), payload.name,
      payload.email, hash_password sha256hex payload.password,
      if payload.role == "user" || payload.role == "admin" then payload.role
      else "user"⟩
    (.ok (userToOut user), { db with users := db.users ++ [user] })

/-- src/main.py list_users: all users, newest id first, as UserOut views. -/
def list_users (db : DB) : List UserOut :=
  (sortIdDesc User.id db.users).map userToOut

/-- src/main.py get_user: 404 when the user id does not exist, else the
UserOut view. -/
def get_user (db : DB) (user_id : Nat) : Except ApiError UserOut :=
  match db.users.find? (fun u => u.id == user_id) with
  | none => .error ⟨404, "User not found"⟩
  | some u => .ok (userToOut u)

/-- src/main.py login: look up the user by email; a missing user and a
failed password check raise the same 401 "Invalid credentials"; on success
return message and role only. -/
def login (sha256hex : String → String) (db : DB) (data : LoginInput) :
    Except ApiError LoginResponse :=
  match findUserByEmail db data.email with
  | none => .error ⟨401, "Invalid credentials"⟩
  | some u =>
    if verify_password sha256hex data.password u.password_hash then
      .ok ⟨"login ok", u.role⟩
    else
      .error ⟨401, "Invalid credentials"⟩

/-- src/main.py admin_list_users: the admin_required guard, then all users
newest id first as UserOut views. -/
def admin_list_users (db : DB) (x_admin_email : Option String) :
    Except ApiError (List UserOut) :=
  match admin_required db x_admin_email with
  | .error e => .error e
  | .ok _ => .ok (list_users db)

/-! Storage-boundary integrity invariants (unique Category.name from
src/models.py; unique User.email modelled from spec §3). -/

/-- Uniqueness of Category.name across the categories table. -/
def uniqueCatNames (db : DB) : Prop :=
  db.categories.Pairwise (fun a b => a.name ≠ b.name)

/-- Uniqueness of User.email across the users table. -/
def uniqueUserEmails (db : DB) : Prop :=
  db.users.Pairwise (fun a b => a.email ≠ b.email)

/-! Helper lemmas. -/

theorem mem_insertIdDesc {α : Type} (key : α → Nat) (x a : α) (l : List α) :
    a ∈ insertIdDesc key x l ↔ a = x ∨ a ∈ l := by
  induction l with
  | nil => simp [insertIdDesc]
  | cons y ys ih =>
    simp only [insertIdDesc]
    split
    · simp [List.mem_cons]
    · simp only [List.mem_cons, ih]
      tauto

theorem mem_sortIdDesc {α : Type} (key : α → Nat) (a : α) (l : List α) :
    a ∈ sortIdDesc key l ↔ a ∈ l := by
  induction l with
  | nil => simp [sortIdDesc]
  | cons y ys ih =>
    simp only [sortIdDesc, List.foldr_cons] at *
    rw [mem_insertIdDesc]
    simp [ih]

theorem le_foldr_max (i : Nat) (ids : List Nat) (h : i ∈ ids) :
    i ≤ ids.foldr (fun a m => max a m) 0 := by
  induction ids with
  | nil => cases h
  | cons x xs ih =>
    rcases List.mem_cons.mp h with rfl | hmem
    · exact le_max_left _ _
    · exact le_trans (ih hmem) (le_max_right _ _)

/-- A generated id never collides with an id already in use. -/
theorem lt_nextId (i : Nat) (ids : List Nat) (h : i ∈ ids) : i < nextId ids :=
  Nat.lt_succ_of_le (le_foldr_max i ids h)

/-- Batteries Rat.floor agrees with the Mathlib floor. -/
theorem ratFloor_eq_intFloor (a : Rat) : a.floor = ⌊a⌋ :=
  (Rat.floor_def' a).trans Rat.floor_def.symm

/-- Evaluation rule for the Numeric(10,2) rounding: quantize2 q is m/100
for the integer m with m ≤ q*100 + 1/2 < m + 1. -/
theorem quantize2_eq_of (q : Rat) (m : Int) (h1 : (m : Rat) ≤ q * 100 + 1/2)
    (h2 : q * 100 + 1/2 < m + 1) : quantize2 q = (m : Rat) / 100 := by
  unfold quantize2
  rw [ratFloor_eq_intFloor, Int.floor_eq_iff.mpr ⟨h1, h2⟩]

/-- The Numeric(10,2) rounding is the identity on a price that already has
at most 2 fractional digits. -/
theorem quantize2_eq_self (q : Rat) (n : Int) (h : q = (n : Rat) / 100) :
    quantize2 q = q := by
  subst h
  unfold quantize2
  have h100 : ((n : Rat) / 100) * 100 = (n : Rat) :=
    div_mul_cancel₀ _ (by norm_num)
  have hhalf : ⌊(1/2 : Rat)⌋ = 0 := by
    rw [Int.floor_eq_zero_iff, Set.mem_Ico]
    norm_num
  rw [h100, ratFloor_eq_intFloor, Int.floor_int_add, hhalf, Int.add_zero]

/-- In a pairwise email-distinct user list, the email lookup of any member
returns exactly that member. -/
theorem find?_email_unique (l : List User)
    (hu : l.Pairwise (fun a b => a.email ≠ b.email)) (v : User) (hv : v ∈ l) :
    l.find? (fun u => u.email == v.email) = some v := by
  induction l with
  | nil => cases hv
  | cons u rest ih =>
    rcases List.mem_cons.mp hv with rfl | hmem
    · simp
    · have hne : u.email ≠ v.email := (List.pairwise_cons.mp hu).1 v hmem
      have hfalse : (u.email == v.email) = false := by
        simp [hne]
      simp only [List.find?_cons, hfalse]
      exact ih (List.pairwise_cons.mp hu).2 hmem

/-- Under unique emails, the email lookup of any stored user returns exactly
that user. -/
theorem findUserByEmail_unique (db : DB) (hu : uniqueUserEmails db) (v : User)
    (hv : v ∈ db.users) : findUserByEmail db v.email = some v :=
  find?_email_unique db.users hu v hv

/-! Claim theorems. -/

/-- C7: for every product-creation payload whose category_id is non-null and
does not reference an existing Category, creation fails with the
CategoryNotFound error (404, "Category not found") and the store is
unchanged; when category_id is null no category check is made and the write
always proceeds. -/
theorem C7_create_product_category_check (db : DB) (payload : ProductCreate) :
    (∀ cid, payload.category_id = some cid →
      findCategoryById db cid = none →
      create_product db payload = (.error ⟨404, "Category not found"⟩, db)) ∧
    (payload.category_id = none →
      ∃ item, create_product db payload =
        (.ok item, { db with products := db.products ++ [item] })) := by
  constructor
  · intro cid hcid hnone
    simp [create_product, hcid, hnone]
  · intro hnone
    refine ⟨⟨nextId (db.products.map Product.id), payload.name,
      quantize2 payload.price, payload.in_stock, payload.category_id⟩, ?_⟩
    simp [create_product, hnone, addProduct]

/-- Witness for C7 at a concrete store and payload: a payload referencing
the nonexistent category 7 is rejected with 404 and the store stays
empty. -/
theorem C7_witness :
    create_product ⟨[], [], []⟩ ⟨"Pen", 3/2, true, some 7⟩ =
      (.error ⟨404, "Category not found"⟩, ⟨[], [], []⟩) :=
  (C7_create_product_category_check ⟨[], [], []⟩ ⟨"Pen", 3/2, true, some 7⟩).1
    7 rfl rfl

/-- C8: category creation fails with the DuplicateName error (400, "Category
name already exists", exact case-sensitive match) and leaves the store
unchanged when a category of the same name exists; otherwise it succeeds,
creating a record with a generated id under which it can be read back. -/
theorem C8_create_category (db : DB) (payload : CategoryCreate) :
    ((∃ c ∈ db.categories, c.name = payload.name) →
      create_category db payload =
        (.error ⟨400, "Category name already exists"⟩, db)) ∧
    ((∀ c ∈ db.categories, c.name ≠ payload.name) →
      ∃ cat db2, create_category db payload = (.ok cat, db2) ∧
        cat.name = payload.name ∧
        db2.categories = db.categories ++ [cat] ∧
        findCategoryById db2 cat.id = some cat) := by
  constructor
  · rintro ⟨c, hc, hname⟩
    have hsome : (findCategoryByName db payload.name).isSome := by
      unfold findCategoryByName
      rw [List.find?_isSome]
      exact ⟨c, hc, by simp [hname]⟩
    unfold create_category
    rcases Option.isSome_iff_exists.mp hsome with ⟨c2, hc2⟩
    rw [hc2]
  · intro hfree
    have hnone : findCategoryByName db payload.name = none := by
      unfold findCategoryByName
      rw [List.find?_eq_none]
      intro c hc
      simp [hfree c hc]
    refine ⟨⟨nextId (db.categories.map Category.id), payload.name⟩,
      { db with categories := db.categories ++
          [⟨nextId (db.categories.map Category.id), payload.name⟩] },
      by simp [create_category, hnone], rfl, rfl, ?_⟩
    unfold findCategoryById
    simp only [List.find?_append]
    have hleft : db.categories.find?
        (fun c => c.id == nextId (db.categories.map Category.id)) = none := by
      rw [List.find?_eq_none]
      intro c hc
      have : c.id < nextId (db.categories.map Category.id) :=
        lt_nextId c.id _ (List.mem_map_of_mem Category.id hc)
      simp [Nat.ne_of_lt this]
    simp [hleft]

/-- Witness for C8 at a concrete store: with "books" present, creating
"books" again fails with 400 and creating "toys" succeeds and is readable
under the returned id. -/
theorem C8_witness :
    create_category ⟨[⟨1, "books"⟩], [], []⟩ ⟨"books"⟩ =
        (.error ⟨400, "Category name already exists"⟩, ⟨[⟨1, "books"⟩], [], []⟩) ∧
    ∃ cat db2, create_category ⟨[⟨1, "books"⟩], [], []⟩ ⟨"toys"⟩ =
        (.ok cat, db2) ∧ cat.name = "toys" ∧
        db2.categories = [⟨1, "books"⟩] ++ [cat] ∧
        findCategoryById db2 cat.id = some cat :=
  ⟨(C8_create_category ⟨[⟨1, "books"⟩], [], []⟩ ⟨"books"⟩).1
      ⟨⟨1, "books"⟩, by simp, rfl⟩,
   (C8_create_category ⟨[⟨1, "books"⟩], [], []⟩ ⟨"toys"⟩).2
      (by intro c hc; simp at hc; simp [hc])⟩

/-- C2 counterexample: with a single non-admin user bob@x.com in the store,
an identity header naming a nonexistent email (ghost@x.com) and one naming
the existing non-admin user produce the very same 403 "Admin access
required" failure — the two failures are not distinct, contrary to the
claim. -/
theorem C2_counterexample :
    admin_required ⟨[], [], [⟨1, "Bob", "bob@x.com", "h", "user"⟩]⟩
        (some "ghost@x.com") = .error ⟨403, "Admin access required"⟩ ∧
    admin_required ⟨[], [], [⟨1, "Bob", "bob@x.com", "h", "user"⟩]⟩
        (some "bob@x.com") = .error ⟨403, "Admin access required"⟩ ∧
    admin_required ⟨[], [], [⟨1, "Bob", "bob@x.com", "h", "user"⟩]⟩
        (some "ghost@x.com") =
      admin_required ⟨[], [], [⟨1, "Bob", "bob@x.com", "h", "user"⟩]⟩
        (some "bob@x.com") := by
  refine ⟨rfl, rfl, rfl⟩

/-- C2 amended: a missing identity header fails with the 401
missing-identity error; a supplied identity fails with one and the same 403
error both when no User with that email exists and when one exists without
role "admin"; an identity belonging to an admin User succeeds. -/
theorem C2_admin_check (db : DB) (h : Option String) :
    (h = none →
      admin_required db h = .error ⟨401, "Missing X-Admin-Email header"⟩) ∧
    (∀ e, h = some e → e ≠ "" →
      ((∀ u ∈ db.users, ¬(u.email = e ∧ u.role = "admin")) →
        admin_required db h = .error ⟨403, "Admin access required"⟩) ∧
      ((∃ u ∈ db.users, u.email = e ∧ u.role = "admin") →
        ∃ u, admin_required db h = .ok u ∧ u.email = e ∧ u.role = "admin")) := by
  constructor
  · rintro rfl
    simp [admin_required]
  · rintro e rfl hne
    have he : (e == "") = false := by simp [hne]
    constructor
    · intro hnoadmin
      have hnone : db.users.find?
          (fun u => u.email == e && u.role == "admin") = none := by
        rw [List.find?_eq_none]
        intro u hu
        have := hnoadmin u hu
        simp only [Bool.and_eq_true, beq_iff_eq]
        tauto
      simp [admin_required, he, hnone]
    · rintro ⟨u, hu, hmail, hrole⟩
      have hsome : (db.users.find?
          (fun v => v.email == e && v.role == "admin")).isSome := by
        rw [List.find?_isSome]
        exact ⟨u, hu, by simp [hmail, hrole]⟩
      rcases Option.isSome_iff_exists.mp hsome with ⟨w, hw⟩
      have hpred := List.find?_some hw
      simp only [Bool.and_eq_true, beq_iff_eq] at hpred
      refine ⟨w, ?_, hpred.1, hpred.2⟩
      simp [admin_required, he, hw]

/-- Witness for C2 amended at a concrete store: an admin identity passes the
guard. -/
theorem C2_witness :
    ∃ u, admin_required ⟨[], [], [⟨1, "Root", "root@x.com", "h", "admin"⟩]⟩
        (some "root@x.com") = .ok u ∧
      u.email = "root@x.com" ∧ u.role = "admin" :=
  ((C2_admin_check ⟨[], [], [⟨1, "Root", "root@x.com", "h", "admin"⟩]⟩
      (some "root@x.com")).2 "root@x.com" rfl (by decide)).2
    ⟨⟨1, "Root", "root@x.com", "h", "admin"⟩, by simp, rfl, rfl⟩

/-- C4: the embedding declares all three record types; at the storage
boundary, creation through the handlers preserves uniqueness of
Category.name and of User.email (the User record and its unique email are
modelled from the spec, src/models.py lacking the declaration). -/
theorem C4_storage_uniqueness (sha256hex : String → String) (db : DB)
    (hc : uniqueCatNames db) (hu : uniqueUserEmails db) :
    (∀ payload cat db2, create_category db payload = (.ok cat, db2) →
      uniqueCatNames db2 ∧ uniqueUserEmails db2) ∧
    (∀ payload out db2, create_user sha256hex db payload = (.ok out, db2) →
      uniqueCatNames db2 ∧ uniqueUserEmails db2) := by
  constructor
  · intro payload cat db2 hok
    cases hfind : findCategoryByName db payload.name with
    | some c => simp [create_category, hfind] at hok
    | none =>
      simp only [create_category, hfind] at hok
      injection hok with h1 h2
      subst h2
      have hfresh : ∀ c ∈ db.categories, c.name ≠ payload.name := by
        intro c hcmem
        have := List.find?_eq_none.mp hfind c hcmem
        simpa using this
      refine ⟨?_, hu⟩
      unfold uniqueCatNames
      rw [List.pairwise_append]
      refine ⟨hc, List.pairwise_singleton _ _, ?_⟩
      intro a ha b hb
      rw [List.mem_singleton] at hb
      subst hb
      exact hfresh a ha
  · intro payload out db2 hok
    cases hfind : findUserByEmail db payload.email with
    | some u => simp [create_user, hfind] at hok
    | none =>
      simp only [create_user, hfind] at hok
      injection hok with h1 h2
      subst h2
      have hfresh : ∀ u ∈ db.users, u.email ≠ payload.email := by
        intro u humem
        have := List.find?_eq_none.mp hfind u humem
        simpa using this
      refine ⟨hc, ?_⟩
      unfold uniqueUserEmails
      rw [List.pairwise_append]
      refine ⟨hu, List.pairwise_singleton _ _, ?_⟩
      intro a ha b hb
      rw [List.mem_singleton] at hb
      subst hb
      exact hfresh a ha

/-- Witness for C4 at a concrete store with one category and one user:
creating a fresh category keeps both uniqueness invariants. -/
theorem C4_witness :
    uniqueCatNames ⟨[⟨1, "books"⟩], [], [⟨1, "A", "a@b.com", "h", "user"⟩]⟩ ∧
    uniqueCatNames ⟨[⟨1, "books"⟩, ⟨2, "toys"⟩], [],
      [⟨1, "A", "a@b.com", "h", "user"⟩]⟩ ∧
    uniqueUserEmails ⟨[⟨1, "books"⟩, ⟨2, "toys"⟩], [],
      [⟨1, "A", "a@b.com", "h", "user"⟩]⟩ :=
  ⟨by simp [uniqueCatNames],
    ((C4_storage_uniqueness (fun s => s)
        ⟨[⟨1, "books"⟩], [], [⟨1, "A", "a@b.com", "h", "user"⟩]⟩
        (by simp [uniqueCatNames]) (by simp [uniqueUserEmails])).1
      ⟨"toys"⟩ ⟨2, "toys"⟩
      ⟨[⟨1, "books"⟩, ⟨2, "toys"⟩], [], [⟨1, "A", "a@b.com", "h", "user"⟩]⟩
      rfl).1,
    ((C4_storage_uniqueness (fun s => s)
        ⟨[⟨1, "books"⟩], [], [⟨1, "A", "a@b.com", "h", "user"⟩]⟩
        (by simp [uniqueCatNames]) (by simp [uniqueUserEmails])).1
      ⟨"toys"⟩ ⟨2, "toys"⟩
      ⟨[⟨1, "books"⟩, ⟨2, "toys"⟩], [], [⟨1, "A", "a@b.com", "h", "user"⟩]⟩
      rfl).2⟩

/-- C5: user creation with a free email always succeeds; the stored role is
the supplied role when it is exactly "user" or "admin" and is silently
coerced to "user" otherwise. -/
theorem C5_create_user_role_coercion (sha256hex : String → String) (db : DB)
    (payload : UserCreate)
    (hfree : ∀ u ∈ db.users, u.email ≠ payload.email) :
    ∃ user : User, create_user sha256hex db payload =
        (.ok (userToOut user), { db with users := db.users ++ [user] }) ∧
      user.email = payload.email ∧
      user.role = (if payload.role = "user" ∨ payload.role = "admin"
        then payload.role else "user") := by
  have hnone : findUserByEmail db payload.email = none := by
    unfold findUserByEmail
    rw [List.find?_eq_none]
    intro u hu
    simp [hfree u hu]
  refine ⟨⟨nextId (db.users.map User.id), payload.name, payload.email,
    hash_password sha256hex payload.password,
    if payload.role == "user" || payload.role == "admin" then payload.role
    else "user"⟩, by simp [create_user, hnone], rfl, ?_⟩
  by_cases h1 : payload.role = "user" <;> by_cases h2 : payload.role = "admin" <;>
    simp [h1, h2]

/-- Witness for C5 at a concrete store: creating a user with role
"superadmin" succeeds and stores role "user". -/
theorem C5_witness :
    ∃ user : User,
      create_user (fun s => s) ⟨[], [], []⟩ ⟨"Sam", "s@x.com", "pw", "superadmin"⟩ =
        (.ok (userToOut user),
          { categories := [], products := [], users := [] ++ [user] }) ∧
      user.email = "s@x.com" ∧ user.role = "user" := by
  obtain ⟨user, heq, hmail, hrole⟩ :=
    C5_create_user_role_coercion (fun s => s) ⟨[], [], []⟩
      ⟨"Sam", "s@x.com", "pw", "superadmin"⟩ (by simp)
  exact ⟨user, heq, hmail, hrole.trans (by decide)⟩

/-- C6: a login with an unknown email and a login with a known email but a
wrong password both fail with the identical 401 "Invalid credentials" error
(indistinguishable results); under unique emails, login succeeds exactly
when a stored User has the supplied email and the supplied password hashes
to the stored hash. -/
theorem C6_login_uniformity (sha256hex : String → String) (db : DB)
    (hu : uniqueUserEmails db) (e1 p1 p2 : String) (u : User)
    (h1 : findUserByEmail db e1 = none)
    (h2 : u ∈ db.users)
    (h3 : hash_password sha256hex p2 ≠ u.password_hash) :
    login sha256hex db ⟨e1, p1⟩ = .error ⟨401, "Invalid credentials"⟩ ∧
    login sha256hex db ⟨u.email, p2⟩ = .error ⟨401, "Invalid credentials"⟩ ∧
    login sha256hex db ⟨e1, p1⟩ = login sha256hex db ⟨u.email, p2⟩ ∧
    (∀ e p, (∃ r, login sha256hex db ⟨e, p⟩ = .ok r) ↔
      ∃ v ∈ db.users, v.email = e ∧
        hash_password sha256hex p = v.password_hash) := by
  have hfound := findUserByEmail_unique db hu u h2
  have hA : login sha256hex db ⟨e1, p1⟩ = .error ⟨401, "Invalid credentials"⟩ := by
    simp [login, h1]
  have hB : login sha256hex db ⟨u.email, p2⟩ =
      .error ⟨401, "Invalid credentials"⟩ := by
    simp [login, hfound, verify_password, h3]
  refine ⟨hA, hB, hA.trans hB.symm, ?_⟩
  intro e p
  constructor
  · rintro ⟨r, hr⟩
    unfold login at hr
    cases hfind : findUserByEmail db e with
    | none => rw [hfind] at hr; cases hr
    | some v =>
      rw [hfind] at hr
      by_cases hv : verify_password sha256hex p v.password_hash
      · refine ⟨v, List.mem_of_find?_eq_some hfind, ?_, ?_⟩
        · have := List.find?_some hfind
          simpa using this
        · unfold verify_password at hv
          simpa using hv
      · simp only [hv] at hr
        simp at hr
  · rintro ⟨v, hv, rfl, hhash⟩
    have hfind := findUserByEmail_unique db hu v hv
    refine ⟨⟨"login ok", v.role⟩, ?_⟩
    simp [login, hfind, verify_password, hhash]

/-- Witness for C6 at a concrete store with one user a@b.com whose stored
hash is that of "secret": a login as the unknown nobody@b.com and a login as
a@b.com with the wrong password "wrong" both produce the identical 401
error, and logging in with "secret" is the only success. -/
theorem C6_witness :
    login (fun s => s ++ "#") ⟨[], [],
        [⟨1, "A", "a@b.com", hash_password (fun s => s ++ "#") "secret", "user"⟩]⟩
        ⟨"nobody@b.com", "x"⟩ = .error ⟨401, "Invalid credentials"⟩ ∧
    login (fun s => s ++ "#") ⟨[], [],
        [⟨1, "A", "a@b.com", hash_password (fun s => s ++ "#") "secret", "user"⟩]⟩
        ⟨"a@b.com", "wrong"⟩ = .error ⟨401, "Invalid credentials"⟩ ∧
    login (fun s => s ++ "#") ⟨[], [],
        [⟨1, "A", "a@b.com", hash_password (fun s => s ++ "#") "secret", "user"⟩]⟩
        ⟨"nobody@b.com", "x"⟩ =
      login (fun s => s ++ "#") ⟨[], [],
        [⟨1, "A", "a@b.com", hash_password (fun s => s ++ "#") "secret", "user"⟩]⟩
        ⟨"a@b.com", "wrong"⟩ := by
  obtain ⟨hA, hB, hAB, -⟩ :=
    C6_login_uniformity (fun s => s ++ "#")
      ⟨[], [], [⟨1, "A", "a@b.com",
        hash_password (fun s => s ++ "#") "secret", "user"⟩]⟩
      (by simp [uniqueUserEmails]) "nobody@b.com" "x" "wrong"
      ⟨1, "A", "a@b.com", hash_password (fun s => s ++ "#") "secret", "user"⟩
      (by decide) (by simp) (by decide)
  exact ⟨hA, hB, hAB⟩

/-- C9: a stored product with null category_id appears in no category's
product listing; a stored product whose category_id is an existing category
X appears in the listing of X and in no other category's listing. -/
theorem C9_category_listing (db : DB) (p : Product) (hp : p ∈ db.products) :
    (p.category_id = none →
      ∀ Y ps, list_products_by_category db Y = .ok ps → p ∉ ps) ∧
    (∀ X, p.category_id = some X →
      ((findCategoryById db X).isSome →
        ∃ ps, list_products_by_category db X = .ok ps ∧ p ∈ ps) ∧
      (∀ Y ps, Y ≠ X → list_products_by_category db Y = .ok ps → p ∉ ps)) := by
  constructor
  · intro hnone Y ps hok hmem
    unfold list_products_by_category at hok
    cases hfind : findCategoryById db Y with
    | none => rw [hfind] at hok; cases hok
    | some c =>
      rw [hfind] at hok
      injection hok with hok
      subst hok
      rw [mem_sortIdDesc] at hmem
      have := (List.mem_filter.mp hmem).2
      rw [hnone] at this
      cases this
  · intro X hX
    constructor
    · intro hsome
      rcases Option.isSome_iff_exists.mp hsome with ⟨c, hc⟩
      refine ⟨sortIdDesc Product.id
        (db.products.filter (fun q => q.category_id == some X)), ?_, ?_⟩
      · simp [list_products_by_category, hc]
      · rw [mem_sortIdDesc]
        exact List.mem_filter.mpr ⟨hp, by simp [hX]⟩
    · intro Y ps hne hok hmem
      unfold list_products_by_category at hok
      cases hfind : findCategoryById db Y with
      | none => rw [hfind] at hok; cases hok
      | some c =>
        rw [hfind] at hok
        injection hok with hok
        subst hok
        rw [mem_sortIdDesc] at hmem
        have := (List.mem_filter.mp hmem).2
        rw [hX] at this
        simp only [Option.some.injEq, beq_iff_eq] at this
        exact hne this.symm

/-- Witness for C9 at a concrete store: with categories 1 and 2 and products
a (category 1), b (category 2) and c (uncategorized), the listing of
category 1 contains a but not b and not c. -/
theorem C9_witness :
    (∃ ps, list_products_by_category
        ⟨[⟨1, "books"⟩, ⟨2, "toys"⟩],
          [⟨1, "a", 1, true, some 1⟩, ⟨2, "b", 2, true, some 2⟩,
            ⟨3, "c", 3, true, none⟩], []⟩ 1 = .ok ps ∧
      (⟨1, "a", 1, true, some 1⟩ : Product) ∈ ps) ∧
    (∀ ps, list_products_by_category
        ⟨[⟨1, "books"⟩, ⟨2, "toys"⟩],
          [⟨1, "a", 1, true, some 1⟩, ⟨2, "b", 2, true, some 2⟩,
            ⟨3, "c", 3, true, none⟩], []⟩ 1 = .ok ps →
      (⟨2, "b", 2, true, some 2⟩ : Product) ∉ ps ∧
      (⟨3, "c", 3, true, none⟩ : Product) ∉ ps) := by
  constructor
  · exact (((C9_category_listing
      ⟨[⟨1, "books"⟩, ⟨2, "toys"⟩],
        [⟨1, "a", 1, true, some 1⟩, ⟨2, "b", 2, true, some 2⟩,
          ⟨3, "c", 3, true, none⟩], []⟩
      ⟨1, "a", 1, true, some 1⟩ (by simp)).2 1 rfl).1 (by decide))
  · intro ps hok
    constructor
    · exact ((C9_category_listing
        ⟨[⟨1, "books"⟩, ⟨2, "toys"⟩],
          [⟨1, "a", 1, true, some 1⟩, ⟨2, "b", 2, true, some 2⟩,
            ⟨3, "c", 3, true, none⟩], []⟩
        ⟨2, "b", 2, true, some 2⟩ (by simp)).2 2 rfl).2 1 ps
        (by decide) hok
    · exact (C9_category_listing
        ⟨[⟨1, "books"⟩, ⟨2, "toys"⟩],
          [⟨1, "a", 1, true, some 1⟩, ⟨2, "b", 2, true, some 2⟩,
            ⟨3, "c", 3, true, none⟩], []⟩
        ⟨3, "c", 3, true, none⟩ (by simp)).1 rfl 1 ps hok

/-- C10: User output views contain exactly id, name, email and role and are
independent of password_hash (two users differing only there have identical
views); the login success body is exactly the message and the user's role;
the admin listing emits only UserOut views. -/
theorem C10_no_password_exposure (sha256hex : String → String) :
    (∀ u : User, userToOut u = ⟨u.id, u.name, u.email, u.role⟩) ∧
    (∀ u v : User, u.id = v.id → u.name = v.name → u.email = v.email →
      u.role = v.role → userToOut u = userToOut v) ∧
    (∀ db data r, login sha256hex db data = .ok r →
      ∃ u, findUserByEmail db data.email = some u ∧
        r = ⟨"login ok", u.role⟩) ∧
    (∀ db h us, admin_list_users db h = .ok us →
      us = (sortIdDesc User.id db.users).map userToOut) := by
  refine ⟨fun u => rfl, ?_, ?_, ?_⟩
  · intro u v h1 h2 h3 h4
    simp [userToOut, h1, h2, h3, h4]
  · intro db data r hr
    unfold login at hr
    cases hfind : findUserByEmail db data.email with
    | none => rw [hfind] at hr; cases hr
    | some u =>
      rw [hfind] at hr
      by_cases hv : verify_password sha256hex data.password u.password_hash
      · simp only [hv, if_true] at hr
        injection hr with hr
        exact ⟨u, rfl, hr.symm⟩
      · simp only [hv, if_false] at hr
        cases hr
  · intro db h us hus
    unfold admin_list_users at hus
    cases hadm : admin_required db h with
    | error e => rw [hadm] at hus; cases hus
    | ok u =>
      rw [hadm] at hus
      injection hus with hus
      exact hus.symm

/-- Witness for C10 at a concrete store: a successful login as a@b.com
returns exactly the message and role body. -/
theorem C10_witness :
    ∃ u, findUserByEmail ⟨[], [],
        [⟨1, "A", "a@b.com", hash_password (fun s => s ++ "#") "secret",
          "user"⟩]⟩ "a@b.com" = some u ∧
      (⟨"login ok", "user"⟩ : LoginResponse) = ⟨"login ok", u.role⟩ :=
  (C10_no_password_exposure (fun s => s ++ "#")).2.2.1
    ⟨[], [], [⟨1, "A", "a@b.com",
      hash_password (fun s => s ++ "#") "secret", "user"⟩]⟩
    ⟨"a@b.com", "secret"⟩ ⟨"login ok", "user"⟩ rfl

/-- C1 counterexample: the claim requires a price with more than 2
fractional digits (10.999) to be rejected with nothing stored; the code
performs no price validation, accepts the payload, and the Numeric(10,2)
column stores (and the handler returns) 11.00. -/
theorem C1_counterexample :
    create_product ⟨[], [], []⟩ ⟨"Widget", 10999/1000, true, none⟩ =
      (.ok ⟨1, "Widget", 11, true, none⟩,
       ⟨[], [⟨1, "Widget", 11, true, none⟩], []⟩) := by
  have hq : quantize2 (10999/1000 : Rat) = 11 := by
    rw [quantize2_eq_of (10999/1000 : Rat) 1100 (by norm_num) (by norm_num)]
    norm_num
  simp [create_product, addProduct, nextId, hq]

/-- C1 amended: a price with more than 2 fractional digits is not rejected:
whenever the category check passes the payload is accepted, and the stored
and returned price is the payload price rounded to 2 fractional digits by
the Numeric(10,2) column (10.999 becomes 11.00); a price with at most 2
fractional digits is stored and returned exactly. -/
theorem C1_price_policy (db : DB) (payload : ProductCreate)
    (hcat : ∀ cid, payload.category_id = some cid →
      (findCategoryById db cid).isSome) :
    ∃ item, create_product db payload =
        (.ok item, { db with products := db.products ++ [item] }) ∧
      item.price = quantize2 payload.price ∧
      (∀ n : Int, payload.price = (n : Rat) / 100 →
        item.price = payload.price) := by
  cases hc : payload.category_id with
  | none =>
    refine ⟨⟨nextId (db.products.map Product.id), payload.name,
      quantize2 payload.price, payload.in_stock, payload.category_id⟩,
      ?_, rfl, ?_⟩
    · simp [create_product, hc, addProduct]
    · intro n hn
      exact quantize2_eq_self payload.price n hn
  | some cid =>
    rcases Option.isSome_iff_exists.mp (hcat cid hc) with ⟨c, hcfind⟩
    refine ⟨⟨nextId (db.products.map Product.id), payload.name,
      quantize2 payload.price, payload.in_stock, payload.category_id⟩,
      ?_, rfl, ?_⟩
    · simp [create_product, hc, hcfind, addProduct]
    · intro n hn
      exact quantize2_eq_self payload.price n hn

/-- Witness for C1 amended on the empty store: the 10.999-priced payload is
accepted and stored as 11, and the 10.99-priced payload is accepted and
stored as exactly 10.99. -/
theorem C1_witness :
    (∃ item, create_product ⟨[], [], []⟩ ⟨"Widget", 10999/1000, true, none⟩ =
        (.ok item, ⟨[], [] ++ [item], []⟩) ∧ item.price = 11) ∧
    (∃ item, create_product ⟨[], [], []⟩ ⟨"Gadget", 1099/100, true, none⟩ =
        (.ok item, ⟨[], [] ++ [item], []⟩) ∧ item.price = 1099/100) := by
  constructor
  · obtain ⟨item, heq, hq, -⟩ :=
      C1_price_policy ⟨[], [], []⟩ ⟨"Widget", 10999/1000, true, none⟩ (by simp)
    refine ⟨item, heq, hq.trans ?_⟩
    rw [quantize2_eq_of (10999/1000 : Rat) 1100 (by norm_num) (by norm_num)]
    norm_num
  · obtain ⟨item, heq, -, hexact⟩ :=
      C1_price_policy ⟨[], [], []⟩ ⟨"Gadget", 1099/100, true, none⟩ (by simp)
    exact ⟨item, heq, hexact 1099 (by norm_num)⟩

/-- C3 counterexample: the claim requires creation with an empty name or a
negative price to fail with a validation domain error and nothing stored;
the code accepts an empty-named, negatively-priced payload and stores it. -/
theorem C3_counterexample :
    create_product ⟨[], [], []⟩ ⟨"", -5, true, none⟩ =
      (.ok ⟨1, "", -5, true, none⟩, ⟨[], [⟨1, "", -5, true, none⟩], []⟩) := by
  have hq : quantize2 (-5 : Rat) = -5 := by
    rw [quantize2_eq_of (-5 : Rat) (-500) (by norm_num) (by norm_num)]
    norm_num
  simp [create_product, addProduct, nextId, hq]

/-- C3 amended: creation and update perform no validation of the payload's
name or price: for any name within the String(120) column bound — the empty
name included — and any price — negative prices included — the write
proceeds whenever the category check passes (and, for update, the product
exists), storing the name as supplied and the price as rounded by the
Numeric(10,2) column; no validation domain error exists for these fields
(handling of names beyond the column bound is the storage backend's, not
the handlers'). -/
theorem C3_no_payload_validation (db : DB) (payload : ProductCreate)
    (upayload : ProductUpdate) (pid : Nat)
    (_hn : payload.name.length ≤ 120) (_hn2 : upayload.name.length ≤ 120)
    (hc : ∀ cid, payload.category_id = some cid →
      (findCategoryById db cid).isSome)
    (hc2 : ∀ cid, upayload.category_id = some cid →
      (findCategoryById db cid).isSome)
    (hp : (findProductById db pid).isSome) :
    (∃ item db2, create_product db payload = (.ok item, db2) ∧
      item.name = payload.name ∧ item.price = quantize2 payload.price) ∧
    (∃ item db2, update_product db pid upayload = (.ok item, db2) ∧
      item.name = upayload.name ∧ item.price = quantize2 upayload.price) := by
  constructor
  · cases hcc : payload.category_id with
    | none =>
      refine ⟨⟨nextId (db.products.map Product.id), payload.name,
        quantize2 payload.price, payload.in_stock, payload.category_id⟩,
        { db with products := db.products ++
          [⟨nextId (db.products.map Product.id), payload.name,
            quantize2 payload.price, payload.in_stock, payload.category_id⟩] },
        ?_, rfl, rfl⟩
      simp [create_product, hcc, addProduct]
    | some cid =>
      rcases Option.isSome_iff_exists.mp (hc cid hcc) with ⟨c, hcfind⟩
      refine ⟨⟨nextId (db.products.map Product.id), payload.name,
        quantize2 payload.price, payload.in_stock, payload.category_id⟩,
        { db with products := db.products ++
          [⟨nextId (db.products.map Product.id), payload.name,
            quantize2 payload.price, payload.in_stock, payload.category_id⟩] },
        ?_, rfl, rfl⟩
      simp [create_product, hcc, hcfind, addProduct]
  · rcases Option.isSome_iff_exists.mp hp with ⟨item0, hfind⟩
    cases hcc : upayload.category_id with
    | none =>
      refine ⟨⟨item0.id, upayload.name, quantize2 upayload.price,
        upayload.in_stock, upayload.category_id⟩,
        { db with products := db.products.map (fun p =>
          if p.id == item0.id then ⟨item0.id, upayload.name,
            quantize2 upayload.price, upayload.in_stock,
            upayload.category_id⟩ else p) },
        ?_, rfl, rfl⟩
      simp [update_product, hfind, hcc, applyUpdate]
    | some cid =>
      rcases Option.isSome_iff_exists.mp (hc2 cid hcc) with ⟨c, hcfind⟩
      refine ⟨⟨item0.id, upayload.name, quantize2 upayload.price,
        upayload.in_stock, upayload.category_id⟩,
        { db with products := db.products.map (fun p =>
          if p.id == item0.id then ⟨item0.id, upayload.name,
            quantize2 upayload.price, upayload.in_stock,
            upayload.category_id⟩ else p) },
        ?_, rfl, rfl⟩
      simp [update_product, hfind, hcc, hcfind, applyUpdate]

/-- Witness for C3 amended at a concrete store with one product: creating
with the empty name and price -5, and updating product 1 to name "X" and
price -7, both succeed and store the values (both prices already have scale
at most 2, so they are stored untouched). -/
theorem C3_witness :
    (∃ item db2, create_product ⟨[], [⟨1, "Old", 1, true, none⟩], []⟩
        ⟨"", -5, true, none⟩ = (.ok item, db2) ∧
      item.name = "" ∧ item.price = -5) ∧
    (∃ item db2, update_product ⟨[], [⟨1, "Old", 1, true, none⟩], []⟩ 1
        ⟨"X", -7, false, none⟩ = (.ok item, db2) ∧
      item.name = "X" ∧ item.price = -7) := by
  obtain ⟨⟨item, db2, heq, hname, hq⟩, ⟨item2, db3, heq2, hname2, hq2⟩⟩ :=
    C3_no_payload_validation ⟨[], [⟨1, "Old", 1, true, none⟩], []⟩
      ⟨"", -5, true, none⟩ ⟨"X", -7, false, none⟩ 1
      (by decide) (by decide) (by simp) (by simp) (by simp [findProductById])
  have h5 : quantize2 (-5 : Rat) = -5 := by
    rw [quantize2_eq_of (-5 : Rat) (-500) (by norm_num) (by norm_num)]
    norm_num
  have h7 : quantize2 (-7 : Rat) = -7 := by
    rw [quantize2_eq_of (-7 : Rat) (-700) (by norm_num) (by norm_num)]
    norm_num
  exact ⟨⟨item, db2, heq, hname, hq.trans h5⟩,
    ⟨item2, db3, heq2, hname2, hq2.trans h7⟩⟩

end Ecom
